import Mathlib

set_option maxRecDepth 4000

/-!
Shallow embedding of src/coral66_semantic_parser.py (class CORAL66Parser).

Text is modelled as a list of characters.  Python regular expressions are
embedded as hand-written matchers, one per pattern of the source, each
implementing the leftmost, non-overlapping, greedy semantics of re.finditer
and re.sub for that specific pattern (ASCII character classes, matching the
inputs this development evaluates on).  The Python dict self.symbols is
modelled as an association list with insertion-order preserving update,
exactly the observable behaviour of a Python dict.
-/

namespace Coral66

/-- Model strings (Python str) as lists of characters. -/
abbrev Str := List Char

/-- Literal helper: a Lean string literal viewed as a model string. -/
def ch (s : String) : Str := s.toList

/-- Python regex word character, ASCII: letters, digits, underscore. -/
def isWordChar (c : Char) : Bool := c.isAlpha || c.isDigit || c == '_'

/-- First character of the identifier class of the source patterns: a-z, A-Z. -/
def isIdentStart (c : Char) : Bool := c.isAlpha

/-- Continuation character of the identifier class: a-z, A-Z, 0-9. -/
def isIdentChar (c : Char) : Bool := c.isAlpha || c.isDigit

/-- Python regex whitespace class, ASCII: space, tab, newline, CR, VT, FF. -/
def isPySpace (c : Char) : Bool :=
  c == ' ' || c == '\t' || c == '\n' || c == '\r' || c == Char.ofNat 11 || c == Char.ofNat 12

/-- Length of the maximal run of characters satisfying p (a greedy star). -/
def countWhile (p : Char → Bool) : Str → Nat
  | [] => 0
  | c :: rest => if p c then countWhile p rest + 1 else 0

/-- Length of a maximal identifier match at the head of the suffix, if any. -/
def identLen : Str → Option Nat
  | [] => none
  | c :: rest => if isIdentStart c then some (countWhile isIdentChar rest + 1) else none

/-- Python regex word boundary at the position between prev and the head of s. -/
def atBoundary (prev : Option Char) (s : Str) : Bool :=
  let pw := match prev with
    | none => false
    | some c => isWordChar c
  let cw := match s with
    | [] => false
    | c :: _ => isWordChar c
  pw != cw

/-- True when the head of the suffix is not a word character (word boundary
after a word character just consumed). -/
def noWordAfter : Str → Bool
  | [] => true
  | c :: _ => !isWordChar c

/-- Case-insensitive literal match (pattern given in upper case), as produced
by the IGNORECASE flag of the source patterns. -/
def matchLitCI : Str → Str → Bool
  | [], _ => true
  | _ :: _, [] => false
  | k :: ks, c :: cs => (c.toUpper == k) && matchLitCI ks cs

/-- Python str.lower, ASCII. -/
def strLower (s : Str) : Str := s.map Char.toLower

/-- Python str.upper, ASCII. -/
def strUpper (s : Str) : Str := s.map Char.toUpper

/-- Python str.split on a single separator character (keeps empty pieces). -/
def pySplit (sep : Char) : Str → List Str
  | [] => [[]]
  | c :: rest =>
    let r := pySplit sep rest
    if c == sep then [] :: r
    else
      match r with
      | h :: t => (c :: h) :: t
      | [] => [[c]]

/-- Python str.strip of whitespace at both ends. -/
def pyStrip (s : Str) : Str :=
  ((s.dropWhile isPySpace).reverse.dropWhile isPySpace).reverse

/-- Python str.find for a needle known to occur: index of first occurrence. -/
def strFind (needle : Str) : Str → Option Nat
  | [] => if needle.isEmpty then some 0 else none
  | c :: rest =>
    if needle.isPrefixOf (c :: rest) then some 0
    else (strFind needle rest).map (· + 1)

/-- Python str.join with a separator. -/
def strJoin (sep : Str) : List Str → Str
  | [] => []
  | [x] => x
  | x :: xs => x ++ sep ++ strJoin sep xs

/-- Decimal rendering of a natural number, for the overlay dictionary keys. -/
def natStr (n : Nat) : Str := (Nat.repr n).toList

/-- CORAL66Parser.KEYWORDS. -/
def KEYWORDS : List Str :=
  [ch "BEGIN", ch "END",
   ch "IF", ch "THEN", ch "ELSE", ch "FOR", ch "DO", ch "WHILE", ch "STEP", ch "UNTIL", ch "GOTO",
   ch "PROCEDURE", ch "RECURSIVE", ch "ANSWER",
   ch "FLOATING", ch "FIXED", ch "INTEGER", ch "UNSIGNED",
   ch "ARRAY", ch "TABLE", ch "SWITCH", ch "OVERLAY", ch "WITH", ch "PRESET",
   ch "VALUE", ch "LOCATION",
   ch "COMMON", ch "LIBRARY", ch "EXTERNAL", ch "ABSOLUTE",
   ch "BITS", ch "LABEL",
   ch "AND", ch "OR", ch "DIFFER", ch "UNION", ch "MASK",
   ch "OCTAL", ch "LITERAL",
   ch "COMMENT",
   ch "DEFINE", ch "DELETE",
   ch "CODE"]

/-- Enum SymbolKind of the source. -/
inductive SymbolKind where
  | VARIABLE
  | ARRAY
  | TABLE
  | PROCEDURE
  | FUNCTION
  | SWITCH
  | LABEL
  | PARAMETER
  | ELEMENT
  | OVERLAY
deriving DecidableEq

/-- Dataclass Symbol of the source. -/
structure Symbol where
  name : Str
  kind : SymbolKind
  data_type : Str
  line : Nat
  column : Nat
  end_line : Nat := 0
  end_column : Nat := 0
  scope : Str := ch "global"
  documentation : Str := []
  parameters : List Str := []
  dimensions : List Str := []
  elements : List Str := []
deriving DecidableEq

/-- Dataclass Reference of the source. -/
structure Reference where
  name : Str
  line : Nat
  column : Nat
  end_column : Nat := 0
  context : Str := []
deriving DecidableEq

/-- Dataclass Diagnostic of the source. -/
structure Diagnostic where
  line : Nat
  column : Nat
  end_column : Nat
  message : Str
  severity : Str := ch "error"
deriving DecidableEq

/-- The dict self.symbols: association list in insertion order. -/
abbrev SymTable := List (Str × Symbol)

/-- Python dict lookup. -/
def dictGet (k : Str) : SymTable → Option Symbol
  | [] => none
  | (k2, v) :: rest => if k2 = k then some v else dictGet k rest

/-- Python dict membership test. -/
def dictContains (k : Str) : SymTable → Bool
  | [] => false
  | (k2, _) :: rest => if k2 = k then true else dictContains k rest

/-- Python dict assignment: update in place if the key exists (keeping its
position), otherwise append at the end. -/
def dictInsert (k : Str) (v : Symbol) : SymTable → SymTable
  | [] => [(k, v)]
  | (k2, v2) :: rest => if k2 = k then (k, v) :: rest else (k2, v2) :: dictInsert k v rest

/-- The mutable state of a CORAL66Parser instance. -/
structure ParserState where
  symbols : SymTable
  references : List Reference
  diagnostics : List Diagnostic
  lines : List Str
  current_scope : Str
  scope_stack : List Str
deriving DecidableEq

/-- CORAL66Parser.__init__. -/
def initState : ParserState :=
  { symbols := [], references := [], diagnostics := [], lines := [],
    current_scope := ch "global", scope_stack := [ch "global"] }

/-!  The generic re.finditer driver.  A matcher inspects the character before
the candidate position (for word boundaries) and the suffix starting there,
and returns the length of the match plus its captured payload.  The driver
scans left to right, emits non-overlapping matches, and resumes after each
match, exactly as re.finditer does (every source pattern matches at least one
character, so no empty-match handling is needed). -/

def scanText {α : Type} (matcher : Option Char → Str → Option (Nat × α)) :
    Nat → Option Char → Str → Nat → List (Nat × Nat × α)
  | 0, _, _, _ => []
  | fuel + 1, prev, s, pos =>
    match s with
    | [] => []
    | c :: rest =>
      match matcher prev s with
      | some (len, a) =>
          (pos, len, a) :: scanText matcher fuel ((s.take len).getLast?) (s.drop len) (pos + len)
      | none => scanText matcher fuel (some c) rest (pos + 1)

/-- All matches of a pattern over a text: list of (start, length, payload). -/
def finditer {α : Type} (matcher : Option Char → Str → Option (Nat × α)) (text : Str) :
    List (Nat × Nat × α) :=
  scanText matcher text.length none text 0

/-- CORAL66Parser._find_position: character offset to (line, column). -/
def rfindNL (l : Str) : Option Nat :=
  match l.reverse.findIdx? (fun c => c == '\n') with
  | some j => some (l.length - 1 - j)
  | none => none

/-- CORAL66Parser._find_position. -/
def find_position (text : Str) (start : Nat) : Nat × Nat :=
  let pre := text.take start
  let line := pre.count '\n'
  match rfindNL pre with
  | some i => (line, start - i - 1)
  | none => (line, start)

/-!  CORAL66Parser._remove_comments.  The pattern is \bCOMMENT\b[^;]*; with
IGNORECASE, substituted by the empty string: a comment region is DELETED, not
blanked.  The greedy [^;]* runs to the first semicolon after COMMENT. -/

/-- Match of the comment pattern at one position: its total length. -/
def matchComment (prev : Option Char) (s : Str) : Option Nat :=
  if atBoundary prev s && matchLitCI (ch "COMMENT") s then
    let s1 := s.drop 7
    if noWordAfter s1 then
      let run := countWhile (fun c => c != ';') s1
      match s1.drop run with
      | ';' :: _ => some (7 + run + 1)
      | _ => none
    else none
  else none

/-- The re.sub scan: copy characters, dropping every comment match. -/
def removeCommentsAux : Nat → Option Char → Str → Str
  | 0, _, s => s
  | fuel + 1, prev, s =>
    match s with
    | [] => []
    | c :: rest =>
      match matchComment prev s with
      | some len => removeCommentsAux fuel ((s.take len).getLast?) (s.drop len)
      | none => c :: removeCommentsAux fuel (some c) rest

/-- CORAL66Parser._remove_comments. -/
def remove_comments (text : Str) : Str :=
  removeCommentsAux text.length none text

/-!  The identifier-list sub-pattern id(\s*,\s*id)* shared by the number,
switch and parameter patterns, and the optional preset tail (\s*:=\s*[^;]+)?
of the number patterns.  In the preset tail the consumed length of
\s*:=\s*[^;]+ equals spaces plus 2 plus the maximal semicolon-free run after
the := sign (whitespace is itself semicolon-free, so the two greedy pieces
together consume exactly that run), and the tail matches only when that run
is nonempty. -/

def idListExt (s : Str) : Nat → Nat → Nat
  | 0, acc => acc
  | fuel + 1, acc =>
    let rest := s.drop acc
    let sp1 := countWhile isPySpace rest
    match rest.drop sp1 with
    | ',' :: r2 =>
      let sp2 := countWhile isPySpace r2
      match identLen (r2.drop sp2) with
      | some n => idListExt s fuel (acc + sp1 + 1 + sp2 + n)
      | none => acc
    | _ => acc

/-- Greedy length of the identifier-list sub-pattern at the head of s. -/
def idListLen (s : Str) : Option Nat :=
  match identLen s with
  | none => none
  | some n => some (idListExt s s.length n)

/-- Greedy length consumed by the optional preset tail at the head of s
(zero when the optional group does not participate). -/
def presetLen (s : Str) : Nat :=
  let sp := countWhile isPySpace s
  match s.drop sp with
  | ':' :: '=' :: r =>
    let run := countWhile (fun c => c != ';') r
    if run == 0 then 0 else sp + 2 + run
  | _ => 0

/-!  CORAL66Parser._parse_number_declarations.  Three patterns, scanned in
this order over the whole cleaned text: the INTEGER pattern
\b(INTEGER)\s+(idlist)(preset)? , the same with FLOATING, and the FIXED
pattern \b(FIXED)\s*\(\s*(\d+)\s*,\s*(-?\d+)\s*\)\s+(idlist)(preset)? ,
all with IGNORECASE. -/

/-- Match of the INTEGER or FLOATING number-declaration pattern (the keyword
is passed in upper case).  Payload: the identifier-list capture. -/
def matchNumberDecl (kw : Str) (prev : Option Char) (s : Str) : Option (Nat × Str) :=
  if atBoundary prev s && matchLitCI kw s then
    let s1 := s.drop kw.length
    let sp := countWhile isPySpace s1
    if sp == 0 then none
    else
      let s2 := s1.drop sp
      match idListLen s2 with
      | none => none
      | some il => some (kw.length + sp + il + presetLen (s2.drop il), s2.take il)
  else none

/-- The sub-pattern \s*\(\s*(\d+)\s*,\s*(-?\d+)\s*\) after the FIXED keyword.
Payload: consumed length and the two digit-group captures. -/
def fixedParen (s : Str) : Option (Nat × Str × Str) :=
  let p1 := countWhile isPySpace s
  match s.drop p1 with
  | '(' :: _ =>
    let p2 := p1 + 1
    let p3 := p2 + countWhile isPySpace (s.drop p2)
    let d1 := countWhile Char.isDigit (s.drop p3)
    if d1 == 0 then none
    else
      let p4 := p3 + d1
      let p5 := p4 + countWhile isPySpace (s.drop p4)
      match s.drop p5 with
      | ',' :: _ =>
        let p6 := p5 + 1
        let p7 := p6 + countWhile isPySpace (s.drop p6)
        let neg : Nat := match s.drop p7 with
          | '-' :: _ => 1
          | _ => 0
        let d2 := countWhile Char.isDigit (s.drop (p7 + neg))
        if d2 == 0 then none
        else
          let p8 := p7 + neg + d2
          let p9 := p8 + countWhile isPySpace (s.drop p8)
          match s.drop p9 with
          | ')' :: _ => some (p9 + 1, (s.drop p3).take d1, (s.drop p7).take (neg + d2))
          | _ => none
      | _ => none
  | _ => none

/-- Match of the FIXED number-declaration pattern.  Payload: total bits,
fraction bits, identifier-list capture. -/
def matchFixedDecl (prev : Option Char) (s : Str) : Option (Nat × Str × Str × Str) :=
  if atBoundary prev s && matchLitCI (ch "FIXED") s then
    match fixedParen (s.drop 5) with
    | none => none
    | some (pl, d1, d2) =>
      let p0 := 5 + pl
      let sp := countWhile isPySpace (s.drop p0)
      if sp == 0 then none
      else
        let p1 := p0 + sp
        match idListLen (s.drop p1) with
        | none => none
        | some il => some (p1 + il + presetLen (s.drop (p1 + il)), d1, d2, (s.drop p1).take il)
  else none

/-- Body of the per-identifier loop of a number declaration: skip empty names
and keywords, otherwise store the Symbol under the lowercased name. -/
def applyNumberIds (typeName doc : Str) (line col : Nat) (ids : List Str)
    (tbl : SymTable) : SymTable :=
  ids.foldl (fun tbl idName =>
    if !idName.isEmpty && !(KEYWORDS.contains (strUpper idName)) then
      dictInsert (strLower idName)
        { name := strLower idName, kind := SymbolKind.VARIABLE, data_type := typeName,
          line := line, column := col, documentation := doc } tbl
    else tbl) tbl

/-- One finditer loop of _parse_number_declarations for INTEGER or FLOATING. -/
def numberPass (kw : Str) (text : Str) (tbl : SymTable) : SymTable :=
  (finditer (matchNumberDecl kw) text).foldl (fun tbl m =>
    let ids := (pySplit ',' m.2.2).map pyStrip
    let lc := find_position text m.1
    applyNumberIds kw (kw ++ ch " variable") lc.1 lc.2 ids tbl) tbl

/-- The FIXED finditer loop of _parse_number_declarations. -/
def fixedPass (text : Str) (tbl : SymTable) : SymTable :=
  (finditer matchFixedDecl text).foldl (fun tbl m =>
    let d1 := m.2.2.1
    let d2 := m.2.2.2.1
    let ids := (pySplit ',' m.2.2.2.2).map pyStrip
    let typeName := ch "FIXED(" ++ d1 ++ ch "," ++ d2 ++ ch ")"
    let doc := ch "Fixed-point variable: " ++ d1 ++ ch " total bits, " ++ d2 ++ ch " fraction bits"
    let lc := find_position text m.1
    applyNumberIds typeName doc lc.1 lc.2 ids tbl) tbl

/-- CORAL66Parser._parse_number_declarations. -/
def parse_number_declarations (text : Str) (tbl : SymTable) : SymTable :=
  fixedPass text (numberPass (ch "FLOATING") text (numberPass (ch "INTEGER") text tbl))

/-!  CORAL66Parser._parse_array_declarations.  Two patterns in this order:
\b(INTEGER|FLOATING)\s+ARRAY\s+(id)\s*\[([^\]]+)\] and
\b(FIXED)\s*\(\s*(\d+)\s*,\s*(-?\d+)\s*\)\s+ARRAY\s+(id)\s*\[([^\]]+)\],
both IGNORECASE. -/

/-- The common tail ARRAY\s+(id)\s*\[([^\]]+)\] after type and whitespace.
Payload: consumed length, array name, dimension capture. -/
def arrayTail (s : Str) : Option (Nat × Str × Str) :=
  if matchLitCI (ch "ARRAY") s then
    let sp := countWhile isPySpace (s.drop 5)
    if sp == 0 then none
    else
      let p1 := 5 + sp
      match identLen (s.drop p1) with
      | none => none
      | some nl =>
        let p2 := p1 + nl
        let p3 := p2 + countWhile isPySpace (s.drop p2)
        match s.drop p3 with
        | '[' :: _ =>
          let p4 := p3 + 1
          let run := countWhile (fun c => c != ']') (s.drop p4)
          if run == 0 then none
          else
            match s.drop (p4 + run) with
            | ']' :: _ => some (p4 + run + 1, (s.drop p1).take nl, (s.drop p4).take run)
            | _ => none
        | _ => none
  else none

/-- Match of the INTEGER/FLOATING array pattern.  Payload: type keyword,
array name, dimension capture. -/
def matchNumArray (prev : Option Char) (s : Str) : Option (Nat × Str × Str × Str) :=
  if !atBoundary prev s then none
  else
    let head : Option (Nat × Str) :=
      if matchLitCI (ch "INTEGER") s then some (7, ch "INTEGER")
      else if matchLitCI (ch "FLOATING") s then some (8, ch "FLOATING")
      else none
    match head with
    | none => none
    | some (k0, tn) =>
      let sp := countWhile isPySpace (s.drop k0)
      if sp == 0 then none
      else
        match arrayTail (s.drop (k0 + sp)) with
        | none => none
        | some (tl, nm, dims) => some (k0 + sp + tl, tn, nm, dims)

/-- Match of the FIXED array pattern.  Payload: total bits, fraction bits,
array name, dimension capture. -/
def matchFixedArray (prev : Option Char) (s : Str) : Option (Nat × Str × Str × Str × Str) :=
  if atBoundary prev s && matchLitCI (ch "FIXED") s then
    match fixedParen (s.drop 5) with
    | none => none
    | some (pl, d1, d2) =>
      let p0 := 5 + pl
      let sp := countWhile isPySpace (s.drop p0)
      if sp == 0 then none
      else
        match arrayTail (s.drop (p0 + sp)) with
        | none => none
        | some (tl, nm, dims) => some (p0 + sp + tl, d1, d2, nm, dims)
  else none

/-- CORAL66Parser._parse_array_declarations. -/
def parse_array_declarations (text : Str) (tbl : SymTable) : SymTable :=
  let tbl := (finditer matchNumArray text).foldl (fun tbl m =>
    let tn := m.2.2.1
    let nm := m.2.2.2.1
    let dims := m.2.2.2.2
    let lc := find_position text m.1
    dictInsert (strLower nm)
      { name := strLower nm, kind := SymbolKind.ARRAY, data_type := tn ++ ch " ARRAY",
        line := lc.1, column := lc.2,
        dimensions := (pySplit ',' dims).map pyStrip,
        documentation := tn ++ ch " array with dimensions [" ++ dims ++ ch "]" } tbl) tbl
  (finditer matchFixedArray text).foldl (fun tbl m =>
    let d1 := m.2.2.1
    let d2 := m.2.2.2.1
    let nm := m.2.2.2.2.1
    let dims := m.2.2.2.2.2
    let typeName := ch "FIXED(" ++ d1 ++ ch "," ++ d2 ++ ch ")"
    let lc := find_position text m.1
    dictInsert (strLower nm)
      { name := strLower nm, kind := SymbolKind.ARRAY, data_type := typeName ++ ch " ARRAY",
        line := lc.1, column := lc.2,
        dimensions := (pySplit ',' dims).map pyStrip,
        documentation := ch "Fixed-point array [" ++ dims ++ ch "]: " ++ d1 ++ ch " bits, " ++
          d2 ++ ch " fraction bits" } tbl) tbl

/-!  CORAL66Parser._parse_table_declarations.  Outer pattern
\bTABLE\s+(id)\s*\[\s*(\d+)\s*,\s*(\d+)\s*\]\s*\[([^\]]*)\] with IGNORECASE
and DOTALL (the pattern contains no dot, so DOTALL is inert); inner element
pattern (id)\s+(INTEGER|FLOATING|FIXED\s*\([^)]+\)|UNSIGNED\s*\([^)]+\))\s+
(-?\d+)(\s*,\s*(\d+))? scanned over the element capture.  The source places
each element at match.start() of the table plus elements_text.find of the
element match text, which is the offset of the FIRST occurrence of that text
inside the element capture. -/

/-- The sub-pattern \s*\([^)]+\) after FIXED or UNSIGNED in an element type. -/
def parenTail (s : Str) (k : Nat) : Option Nat :=
  let sp := countWhile isPySpace (s.drop k)
  match s.drop (k + sp) with
  | '(' :: _ =>
    let p1 := k + sp + 1
    let run := countWhile (fun c => c != ')') (s.drop p1)
    if run == 0 then none
    else
      match s.drop (p1 + run) with
      | ')' :: _ => some (p1 + run + 1)
      | _ => none
  | _ => none

/-- The element type alternation.  Returns its consumed length. -/
def matchElemType (s : Str) : Option Nat :=
  if matchLitCI (ch "INTEGER") s then some 7
  else if matchLitCI (ch "FLOATING") s then some 8
  else if matchLitCI (ch "FIXED") s then parenTail s 5
  else if matchLitCI (ch "UNSIGNED") s then parenTail s 8
  else none

/-- Match of the element pattern (no word boundary: the pattern starts with
the bare identifier group).  Payload: element name and raw type capture. -/
def matchElem (_prev : Option Char) (s : Str) : Option (Nat × Str × Str) :=
  match identLen s with
  | none => none
  | some nl =>
    let sp1 := countWhile isPySpace (s.drop nl)
    if sp1 == 0 then none
    else
      let p1 := nl + sp1
      match matchElemType (s.drop p1) with
      | none => none
      | some tl =>
        let p2 := p1 + tl
        let sp2 := countWhile isPySpace (s.drop p2)
        if sp2 == 0 then none
        else
          let p3 := p2 + sp2
          let neg : Nat := match s.drop p3 with
            | '-' :: _ => 1
            | _ => 0
          let d1 := countWhile Char.isDigit (s.drop (p3 + neg))
          if d1 == 0 then none
          else
            let p4 := p3 + neg + d1
            let opt : Nat :=
              let sp3 := countWhile isPySpace (s.drop p4)
              match s.drop (p4 + sp3) with
              | ',' :: _ =>
                let sp4 := countWhile isPySpace (s.drop (p4 + sp3 + 1))
                let d2 := countWhile Char.isDigit (s.drop (p4 + sp3 + 1 + sp4))
                if d2 == 0 then 0 else sp3 + 1 + sp4 + d2
              | _ => 0
            some (p4 + opt, s.take nl, (s.drop p1).take tl)

/-- Match of the table pattern.  Payload: table name, width, length and the
raw element-body capture. -/
def matchTable (prev : Option Char) (s : Str) : Option (Nat × Str × Str × Str × Str) :=
  if atBoundary prev s && matchLitCI (ch "TABLE") s then
    let sp := countWhile isPySpace (s.drop 5)
    if sp == 0 then none
    else
      let p1 := 5 + sp
      match identLen (s.drop p1) with
      | none => none
      | some nl =>
        let p2 := p1 + nl
        let p3 := p2 + countWhile isPySpace (s.drop p2)
        match s.drop p3 with
        | '[' :: _ =>
          let p4 := p3 + 1 + countWhile isPySpace (s.drop (p3 + 1))
          let d1 := countWhile Char.isDigit (s.drop p4)
          if d1 == 0 then none
          else
            let p5 := p4 + d1 + countWhile isPySpace (s.drop (p4 + d1))
            match s.drop p5 with
            | ',' :: _ =>
              let p6 := p5 + 1 + countWhile isPySpace (s.drop (p5 + 1))
              let d2 := countWhile Char.isDigit (s.drop p6)
              if d2 == 0 then none
              else
                let p7 := p6 + d2 + countWhile isPySpace (s.drop (p6 + d2))
                match s.drop p7 with
                | ']' :: _ =>
                  let p8 := p7 + 1 + countWhile isPySpace (s.drop (p7 + 1))
                  match s.drop p8 with
                  | '[' :: _ =>
                    let p9 := p8 + 1
                    let run := countWhile (fun c => c != ']') (s.drop p9)
                    match s.drop (p9 + run) with
                    | ']' :: _ =>
                      some (p9 + run + 1, (s.drop p1).take nl, (s.drop p4).take d1,
                            (s.drop p6).take d2, (s.drop p9).take run)
                    | _ => none
                  | _ => none
                | _ => none
            | _ => none
        | _ => none
  else none

/-- CORAL66Parser._parse_table_declarations. -/
def parse_table_declarations (text : Str) (tbl : SymTable) : SymTable :=
  (finditer matchTable text).foldl (fun tbl m =>
    let start := m.1
    let nm := m.2.2.1
    let w := m.2.2.2.1
    let l := m.2.2.2.2.1
    let elemsText := m.2.2.2.2.2
    let lc := find_position text start
    let res := (finditer matchElem elemsText).foldl
      (fun (acc : SymTable × List Str) em =>
        let g0 := (elemsText.drop em.1).take em.2.1
        let ename := em.2.2.1
        let etype := em.2.2.2
        let fidx := (strFind g0 elemsText).getD 0
        let elc := find_position text (start + fidx)
        (dictInsert (strLower nm ++ ch "." ++ strLower ename)
          { name := strLower ename, kind := SymbolKind.ELEMENT, data_type := strUpper etype,
            line := elc.1, column := elc.2, scope := strLower nm,
            documentation := ch "Element of TABLE " ++ nm } acc.1,
         acc.2 ++ [strLower ename])) (tbl, [])
    dictInsert (strLower nm)
      { name := strLower nm, kind := SymbolKind.TABLE,
        data_type := ch "TABLE[" ++ w ++ ch "," ++ l ++ ch "]",
        line := lc.1, column := lc.2, elements := res.2,
        documentation := ch "Table with width " ++ w ++ ch ", length " ++ l } res.1) tbl

/-!  CORAL66Parser._parse_procedure_declarations.  Pattern
\b(INTEGER|FLOATING|FIXED\s*\([^)]+\))?\s*(RECURSIVE\s+)?PROCEDURE\s+(id)
\s*(\(([^)]*)\))?\s*; with IGNORECASE.  The optional return-type and
RECURSIVE groups are greedy: the branch with the group present is tried
first and the engine falls back to the absent branch when the remainder
fails (the alternatives start with distinct letters, so no deeper
backtracking can occur). -/

/-- The optional parenthesised parameter group.  Returns consumed length and
the raw capture (none when the group does not participate). -/
def parenGroupOpt (s : Str) : Nat × Option Str :=
  match s with
  | '(' :: r =>
    let run := countWhile (fun c => c != ')') r
    match r.drop run with
    | ')' :: _ => (run + 2, some (r.take run))
    | _ => (0, none)
  | _ => (0, none)

/-- The tail PROCEDURE\s+(id)\s*(\(([^)]*)\))?\s*; of the pattern.
Payload: procedure name and optional parameter capture. -/
def procRest (s : Str) : Option (Nat × Str × Option Str) :=
  if matchLitCI (ch "PROCEDURE") s then
    let sp := countWhile isPySpace (s.drop 9)
    if sp == 0 then none
    else
      let p1 := 9 + sp
      match identLen (s.drop p1) with
      | none => none
      | some nl =>
        let p2 := p1 + nl
        let p3 := p2 + countWhile isPySpace (s.drop p2)
        let pg := parenGroupOpt (s.drop p3)
        let p4 := p3 + pg.1
        let p5 := p4 + countWhile isPySpace (s.drop p4)
        match s.drop p5 with
        | ';' :: _ => some (p5 + 1, (s.drop p1).take nl, pg.2)
        | _ => none
  else none

/-- The optional group RECURSIVE\s+ . -/
def recLen (s : Str) : Option Nat :=
  if matchLitCI (ch "RECURSIVE") s then
    let sp := countWhile isPySpace (s.drop 9)
    if sp == 0 then none else some (9 + sp)
  else none

/-- The pattern after the optional return type:
\s*(RECURSIVE\s+)?PROCEDURE\s+(id)\s*(\(([^)]*)\))?\s*; . -/
def procAfterType (s : Str) : Option (Nat × Bool × Str × Option Str) :=
  let sp := countWhile isPySpace s
  let s1 := s.drop sp
  let withRec : Option (Nat × Bool × Str × Option Str) :=
    match recLen s1 with
    | some rl =>
      match procRest (s1.drop rl) with
      | some (n, nm, ps) => some (sp + rl + n, true, nm, ps)
      | none => none
    | none => none
  match withRec with
  | some r => some r
  | none =>
    match procRest s1 with
    | some (n, nm, ps) => some (sp + n, false, nm, ps)
    | none => none

/-- The optional return-type group INTEGER|FLOATING|FIXED\s*\([^)]+\).
Payload: consumed length and raw capture. -/
def procType (s : Str) : Option (Nat × Str) :=
  if matchLitCI (ch "INTEGER") s then some (7, s.take 7)
  else if matchLitCI (ch "FLOATING") s then some (8, s.take 8)
  else if matchLitCI (ch "FIXED") s then
    match parenTail s 5 with
    | some n => some (n, s.take n)
    | none => none
  else none

/-- Match of the full procedure pattern.  Payload: optional raw return type,
RECURSIVE flag, procedure name, optional raw parameter capture. -/
def matchProc (prev : Option Char) (s : Str) :
    Option (Nat × Option Str × Bool × Str × Option Str) :=
  if !atBoundary prev s then none
  else
    let withType : Option (Nat × Option Str × Bool × Str × Option Str) :=
      match procType s with
      | some (tl, traw) =>
        match procAfterType (s.drop tl) with
        | some (n, r, nm, ps) => some (tl + n, some traw, r, nm, ps)
        | none => none
      | none => none
    match withType with
    | some r => some r
    | none =>
      match procAfterType s with
      | some (n, r, nm, ps) => some (n, none, r, nm, ps)
      | none => none

/-- The re.search of :\s*(idlist) inside one parameter group: the source
extracts the identifiers after the first colon that is followed (after
whitespace) by an identifier. -/
def searchColonIds : Str → Option Str
  | [] => none
  | ':' :: r =>
    let sp := countWhile isPySpace r
    match idListLen (r.drop sp) with
    | some n => some ((r.drop sp).take n)
    | none => searchColonIds r
  | _ :: r => searchColonIds r

/-- CORAL66Parser._parse_procedure_declarations. -/
def parse_procedure_declarations (text : Str) (tbl : SymTable) : SymTable :=
  (finditer matchProc text).foldl (fun tbl m =>
    let traw := m.2.2.1
    let isRec := m.2.2.2.1
    let nm := m.2.2.2.2.1
    let ps := m.2.2.2.2.2
    let lc := find_position text m.1
    let kind := if traw.isSome then SymbolKind.FUNCTION else SymbolKind.PROCEDURE
    let typeStr0 : Str := match traw with
      | some t => strUpper t ++ ch " PROCEDURE"
      | none => ch "PROCEDURE"
    let typeStr := if isRec then ch "RECURSIVE " ++ typeStr0 else typeStr0
    let pres : List Str × SymTable :=
      match ps with
      | none => ([], tbl)
      | some pt =>
        if pt.isEmpty then ([], tbl)
        else
          (pySplit ';' pt).foldl (fun acc part =>
            let part2 := pyStrip part
            if part2.isEmpty then acc
            else
              match searchColonIds part2 with
              | none => acc
              | some g1 =>
                let ids := (pySplit ',' g1).map pyStrip
                (acc.1 ++ ids,
                 ids.foldl (fun t p =>
                   dictInsert (strLower nm ++ ch "." ++ strLower p)
                     { name := strLower p, kind := SymbolKind.PARAMETER,
                       data_type := ch "parameter", line := lc.1, column := lc.2,
                       scope := strLower nm,
                       documentation := ch "Parameter of " ++ nm } t) acc.2)) ([], tbl)
    dictInsert (strLower nm)
      { name := strLower nm, kind := kind, data_type := typeStr,
        line := lc.1, column := lc.2, parameters := pres.1,
        documentation := typeStr ++ ch " - " ++
          (match traw with
           | some t => ch "returns " ++ strUpper t
           | none => ch "no return value") } pres.2) tbl

/-!  CORAL66Parser._parse_switch_declarations.  Pattern
\bSWITCH\s+(id)\s*:=\s*(idlist) with IGNORECASE. -/

/-- Match of the switch pattern.  Payload: switch name and raw label list. -/
def matchSwitch (prev : Option Char) (s : Str) : Option (Nat × Str × Str) :=
  if atBoundary prev s && matchLitCI (ch "SWITCH") s then
    let sp := countWhile isPySpace (s.drop 6)
    if sp == 0 then none
    else
      let p1 := 6 + sp
      match identLen (s.drop p1) with
      | none => none
      | some nl =>
        let p2 := p1 + nl
        let p3 := p2 + countWhile isPySpace (s.drop p2)
        match s.drop p3 with
        | ':' :: '=' :: _ =>
          let p4 := p3 + 2
          let p5 := p4 + countWhile isPySpace (s.drop p4)
          match idListLen (s.drop p5) with
          | none => none
          | some ll => some (p5 + ll, (s.drop p1).take nl, (s.drop p5).take ll)
        | _ => none
  else none

/-- CORAL66Parser._parse_switch_declarations. -/
def parse_switch_declarations (text : Str) (tbl : SymTable) : SymTable :=
  (finditer matchSwitch text).foldl (fun tbl m =>
    let nm := m.2.2.1
    let labels := (pySplit ',' m.2.2.2).map pyStrip
    let lc := find_position text m.1
    dictInsert (strLower nm)
      { name := strLower nm, kind := SymbolKind.SWITCH, data_type := ch "SWITCH",
        line := lc.1, column := lc.2, elements := labels,
        documentation := ch "Switch with labels: " ++ strJoin (ch ", ") labels } tbl) tbl

/-!  CORAL66Parser._parse_overlay_declarations.  Pattern
\bOVERLAY\s+((id)(\s*\[[^\]]*\])?)\s+WITH\s+ with IGNORECASE.  The optional
bracket group is greedy, falling back to the bare identifier when the WITH
tail fails after the brackets. -/

/-- The optional group \s*\[[^\]]*\] . -/
def overlayBracket (s : Str) : Option Nat :=
  let sp := countWhile isPySpace s
  match s.drop sp with
  | '[' :: _ =>
    let p1 := sp + 1
    let run := countWhile (fun c => c != ']') (s.drop p1)
    match s.drop (p1 + run) with
    | ']' :: _ => some (p1 + run + 1)
    | _ => none
  | _ => none

/-- The tail \s+WITH\s+ . -/
def withTail (s : Str) : Option Nat :=
  let sp1 := countWhile isPySpace s
  if sp1 == 0 then none
  else if matchLitCI (ch "WITH") (s.drop sp1) then
    let sp2 := countWhile isPySpace (s.drop (sp1 + 4))
    if sp2 == 0 then none else some (sp1 + 4 + sp2)
  else none

/-- Match of the overlay pattern.  Payload: the raw base capture. -/
def matchOverlay (prev : Option Char) (s : Str) : Option (Nat × Str) :=
  if atBoundary prev s && matchLitCI (ch "OVERLAY") s then
    let sp := countWhile isPySpace (s.drop 7)
    if sp == 0 then none
    else
      let p1 := 7 + sp
      match identLen (s.drop p1) with
      | none => none
      | some nl =>
        let p2 := p1 + nl
        let withBr : Option (Nat × Str) :=
          match overlayBracket (s.drop p2) with
          | some bl =>
            match withTail (s.drop (p2 + bl)) with
            | some wl => some (p2 + bl + wl, (s.drop p1).take (nl + bl))
            | none => none
          | none => none
        match withBr with
        | some r => some r
        | none =>
          match withTail (s.drop p2) with
          | some wl => some (p2 + wl, (s.drop p1).take nl)
          | none => none
  else none

/-- CORAL66Parser._parse_overlay_declarations. -/
def parse_overlay_declarations (text : Str) (tbl : SymTable) : SymTable :=
  (finditer matchOverlay text).foldl (fun tbl m =>
    let base := m.2.2
    let lc := find_position text m.1
    dictInsert (ch "overlay_" ++ natStr lc.1 ++ ch "_" ++ natStr lc.2)
      { name := strLower base, kind := SymbolKind.OVERLAY, data_type := ch "OVERLAY",
        line := lc.1, column := lc.2,
        documentation := ch "Overlay on " ++ base } tbl) tbl

/-!  CORAL66Parser._parse_labels.  Pattern \b(id)\s*:(?!=) without flags.
The finditer consumes every match; the keyword test and the do-not-override
test happen in the loop body. -/

/-- Match of the label pattern.  Payload: the identifier. -/
def matchLabel (prev : Option Char) (s : Str) : Option (Nat × Str) :=
  if !atBoundary prev s then none
  else
    match identLen s with
    | none => none
    | some nl =>
      let sp := countWhile isPySpace (s.drop nl)
      match s.drop (nl + sp) with
      | ':' :: rest =>
        match rest with
        | '=' :: _ => none
        | _ => some (nl + sp + 1, s.take nl)
      | _ => none

/-- Loop body of _parse_labels for one match: skip keywords, and never
override an existing symbol of the same lowercased name. -/
def labelStep (text : Str) (tbl : SymTable) (m : Nat × Nat × Str) : SymTable :=
  let nm := m.2.2
  if KEYWORDS.contains (strUpper nm) then tbl
  else
    let lc := find_position text m.1
    if dictContains (strLower nm) tbl then tbl
    else
      dictInsert (strLower nm)
        { name := strLower nm, kind := SymbolKind.LABEL, data_type := ch "LABEL",
          line := lc.1, column := lc.2, documentation := ch "Label" } tbl

/-- CORAL66Parser._parse_labels. -/
def parse_labels (text : Str) (tbl : SymTable) : SymTable :=
  (finditer matchLabel text).foldl (labelStep text) tbl

/-!  CORAL66Parser._parse_references.  Pattern \b(id)\b without flags;
keywords are skipped, every other identifier occurrence is appended. -/

/-- Match of the bare identifier pattern with word boundaries on both sides.
Payload: the identifier. -/
def matchIdentWord (prev : Option Char) (s : Str) : Option (Nat × Str) :=
  if !atBoundary prev s then none
  else
    match identLen s with
    | none => none
    | some nl => if noWordAfter (s.drop nl) then some (nl, s.take nl) else none

/-- CORAL66Parser._parse_references. -/
def parse_references (text : Str) (refs : List Reference) : List Reference :=
  (finditer matchIdentWord text).foldl (fun refs m =>
    let nm := m.2.2
    if KEYWORDS.contains (strUpper nm) then refs
    else
      let lc := find_position text m.1
      refs ++ [{ name := strLower nm, line := lc.1, column := lc.2,
                 end_column := lc.2 + nm.length }]) refs

/-- CORAL66Parser.parse.  Every instance field is assigned afresh from the
text alone (the method resets symbols, references, diagnostics, lines,
current_scope and scope_stack before scanning), so the incoming state is
never read.  No code path ever appends a Diagnostic. -/
def parse (_self : ParserState) (text : Str) : ParserState :=
  let cleaned := remove_comments text
  let syms := parse_labels cleaned
    (parse_overlay_declarations cleaned
      (parse_switch_declarations cleaned
        (parse_procedure_declarations cleaned
          (parse_table_declarations cleaned
            (parse_array_declarations cleaned
              (parse_number_declarations cleaned []))))))
  { symbols := syms,
    references := parse_references cleaned [],
    diagnostics := [],
    lines := pySplit '\n' text,
    current_scope := ch "global",
    scope_stack := [ch "global"] }

/-!  The query layer.  get_hover, get_definition and get_references_at each
guard on line being in range of self.lines (built from the ORIGINAL text),
then scan that line with \b(id)\b and take the first match whose span
contains the column (match.start() less-or-equal column less-or-equal
match.end()), exactly the loop-and-break shape of the source. -/

/-- Result dict of get_definition: line, column and name keys. -/
structure DefinitionLoc where
  line : Nat
  column : Nat
  name : Str
deriving DecidableEq

/-- Result dict of get_references_at entries: line, column, end_column keys. -/
structure RefLoc where
  line : Nat
  column : Nat
  end_column : Nat
deriving DecidableEq

/-- The word at a column of one line: first \b(id)\b match containing it. -/
def firstWordAt (lineText : Str) (column : Nat) : Option Str :=
  ((finditer matchIdentWord lineText).find?
    (fun m => decide (m.1 ≤ column) && decide (column ≤ m.1 + m.2.1))).map (fun m => m.2.2)

/-- The shared position-to-word step of the three queries: out-of-range lines
yield nothing (the source guard line greater-or-equal len(self.lines)). -/
def wordAt (st : ParserState) (line column : Nat) : Option Str :=
  match st.lines[line]? with
  | none => none
  | some lt => firstWordAt lt column

/-- CORAL66Parser.get_hover (the contents string of the returned dict). -/
def get_hover (st : ParserState) (line column : Nat) : Option Str :=
  match wordAt st line column with
  | none => none
  | some w =>
    if KEYWORDS.contains (strUpper w) then
      some (ch "**" ++ strUpper w ++ ch "**\n\nCORAL 66 keyword")
    else
      match dictGet (strLower w) st.symbols with
      | some sym =>
        some (ch "**" ++ sym.name ++ ch "**: " ++ sym.data_type ++ ch "\n\n" ++
          sym.documentation)
      | none => none

/-- CORAL66Parser.get_definition. -/
def get_definition (st : ParserState) (line column : Nat) : Option DefinitionLoc :=
  match wordAt st line column with
  | none => none
  | some w =>
    match dictGet (strLower w) st.symbols with
    | some sym => some { line := sym.line, column := sym.column, name := sym.name }
    | none => none

/-- CORAL66Parser.get_references_at. -/
def get_references_at (st : ParserState) (line column : Nat) : List RefLoc :=
  match wordAt st line column with
  | none => []
  | some w =>
    (st.references.filter (fun r => decide (r.name = strLower w))).map
      (fun r => { line := r.line, column := r.column, end_column := r.end_column })

/-!  Helper lemmas about the dict model. -/

/-- Updating one key leaves lookups of every other key unchanged. -/
theorem dictGet_insert_ne (k k2 : Str) (v : Symbol) (tbl : SymTable) (h : k2 ≠ k) :
    dictGet k (dictInsert k2 v tbl) = dictGet k tbl := by
  induction tbl with
  | nil => simp [dictInsert, dictGet, h]
  | cons hd tl ih =>
    obtain ⟨k3, v3⟩ := hd
    by_cases h3 : k3 = k2
    · subst h3
      simp [dictInsert, dictGet, h]
    · by_cases h4 : k3 = k <;> simp [dictInsert, dictGet, h3, h4, Ne.symm h, ih]

/-- A key that is not contained has no value. -/
theorem dictGet_eq_none_of_not_contains (k : Str) (tbl : SymTable)
    (h : dictContains k tbl = false) : dictGet k tbl = none := by
  induction tbl with
  | nil => simp [dictGet]
  | cons hd tl ih =>
    obtain ⟨k2, v2⟩ := hd
    by_cases h2 : k2 = k
    · simp [dictContains, h2] at h
    · simp [dictContains, h2] at h
      simp [dictGet, h2, ih h]

/-- One label-loop step never replaces an existing symbol-table entry. -/
theorem labelStep_preserves (text : Str) (k : Str) (v : Symbol) (tbl : SymTable)
    (m : Nat × Nat × Str) (h : dictGet k tbl = some v) :
    dictGet k (labelStep text tbl m) = some v := by
  unfold labelStep
  dsimp only
  split
  · exact h
  · split
    · exact h
    · next hc =>
        have hcf : dictContains (strLower m.2.2) tbl = false := by
          simpa using hc
        have hne : strLower m.2.2 ≠ k := by
          intro he
          have hnone : dictGet k tbl = none :=
            dictGet_eq_none_of_not_contains k tbl (he ▸ hcf)
          rw [hnone] at h
          exact Option.noConfusion h
        rw [dictGet_insert_ne k (strLower m.2.2) _ tbl hne]
        exact h

/-- Folding the label loop over any match list preserves existing entries. -/
theorem foldl_labelStep_preserves (text : Str) (k : Str) (v : Symbol) :
    ∀ (ms : List (Nat × Nat × Str)) (tbl : SymTable), dictGet k tbl = some v →
      dictGet k (ms.foldl (labelStep text) tbl) = some v := by
  intro ms
  induction ms with
  | nil => intro tbl h; simpa using h
  | cons m ms ih =>
    intro tbl h
    exact ih _ (labelStep_preserves text k v tbl m h)

/-!  Concrete documents used to settle the claims. -/

/-- A document with a global INTEGER x, a nested redeclaration of x inside
the body of PROCEDURE p, and a use of x after the procedure (outside the
nested scope). -/
def ex1 : Str := ch "INTEGER x;\nPROCEDURE p;\nBEGIN\nINTEGER x;\nEND;\nx := 1;"

/-- A document whose COMMENT region spans two lines, followed by a
declaration. -/
def ex2 : Str := ch "COMMENT a\nb;\nINTEGER x;"

/-- A document with a global INTEGER x and a procedure parameter also named
x (stored as the differently-scoped symbol p.x). -/
def ex3 : Str := ch "INTEGER x;\nPROCEDURE p(VALUE INTEGER: x);\nx := 1;"

/-- The same name declared twice directly in one scope, on one line. -/
def ex4 : Str := ch "INTEGER x; INTEGER x;"

/-- The same name declared twice directly in one scope, on two lines. -/
def ex4b : Str := ch "INTEGER x;\nINTEGER x;"

/-- A malformed declaration head (an ARRAY declaration with no array name)
followed by a well-formed declaration. -/
def ex5 : Str := ch "INTEGER ARRAY [1:2];\nINTEGER y;"

/-!  The claims. -/

/-- Claim C6: parsing identical text twice, in two independent analyses,
produces structurally identical snapshots (equal symbol tables, reference
lists, diagnostic lists, and all other state).  The parse method assigns
every instance field afresh from the text, so the result does not depend on
the prior state of the instance. -/
theorem C6_theorem (st1 st2 : ParserState) (text : Str) :
    parse st1 text = parse st2 text := rfl

/-- Claim C10: parse of t1 followed by parse of t2 on the same instance
leaves exactly the state that a freshly constructed parser (initState, the
state built by the constructor) has after parse of t2 alone: no state from
the earlier parse survives. -/
theorem C10_theorem (st : ParserState) (t1 t2 : Str) :
    parse (parse st t1) t2 = parse initState t2 := rfl

/-- Claim C7: parsing the text INTEGER count, total := 0; yields Symbols
count and total, both of kind VARIABLE with data type INTEGER. -/
theorem C7_theorem :
    dictGet (ch "count") (parse initState (ch "INTEGER count, total := 0;")).symbols =
      some { name := ch "count", kind := SymbolKind.VARIABLE, data_type := ch "INTEGER",
             line := 0, column := 0, documentation := ch "INTEGER variable" } ∧
    dictGet (ch "total") (parse initState (ch "INTEGER count, total := 0;")).symbols =
      some { name := ch "total", kind := SymbolKind.VARIABLE, data_type := ch "INTEGER",
             line := 0, column := 0, documentation := ch "INTEGER variable" } := by
  decide

/-- Claim C4, counterexample: on ex4 (the same name x declared twice in the
single global scope) the parser records NO diagnostic at all (the
diagnostics list is empty, so no DuplicateSymbol is reported), and the
Symbol stored for x is the one of the SECOND declaration (column 11), not
the first (column 0): the claim that a diagnostic is recorded and that the
first declaration wins fails on both counts. -/
theorem C4_counterexample :
    (parse initState ex4).diagnostics = [] ∧
    dictGet (ch "x") (parse initState ex4).symbols =
      some { name := ch "x", kind := SymbolKind.VARIABLE, data_type := ch "INTEGER",
             line := 0, column := 11, documentation := ch "INTEGER variable" } := by
  decide

/-- Claim C4 as amended: when the same name is declared twice directly in
one scope, no diagnostic of any kind is recorded (the diagnostics list
stays empty) and the LAST processed declaration wins: dict assignment
overwrites the previous Symbol stored under the key, as the general
dictInsert fact states, and on ex4b the stored x is the line-1 declaration. -/
theorem C4_theorem :
    (∀ (tbl : SymTable) (k : Str) (v : Symbol), dictGet k (dictInsert k v tbl) = some v) ∧
    (parse initState ex4b).diagnostics = [] ∧
    dictGet (ch "x") (parse initState ex4b).symbols =
      some { name := ch "x", kind := SymbolKind.VARIABLE, data_type := ch "INTEGER",
             line := 1, column := 0, documentation := ch "INTEGER variable" } := by
  refine ⟨?_, by decide, by decide⟩
  intro tbl k v
  induction tbl with
  | nil => simp [dictInsert, dictGet]
  | cons hd tl ih =>
    obtain ⟨k2, v2⟩ := hd
    by_cases h : k2 = k <;> simp [dictInsert, dictGet, h, ih]

/-- Claim C5, counterexample: ex5 contains a malformed declaration head
(INTEGER ARRAY with no array name), yet after parsing the diagnostics list
is EMPTY: no SyntaxPatternMismatch diagnostic is ever recorded.  (The rest
of the claim does hold: the bad declaration is skipped and the following
declaration of y is still extracted.) -/
theorem C5_counterexample :
    (parse initState ex5).diagnostics = [] ∧
    (dictGet (ch "y") (parse initState ex5).symbols).isSome = true := by
  decide

/-- Claim C5 as amended: an unrecognized or malformed declaration head is
silently skipped with NO diagnostic (no code path of parse ever appends a
Diagnostic, so the diagnostics list of every snapshot is empty), extraction
continues with the following text (y is still extracted on ex5), and the
parse, a total function, never aborts. -/
theorem C5_theorem :
    (∀ (st : ParserState) (text : Str), (parse st text).diagnostics = []) ∧
    (dictGet (ch "y") (parse initState ex5).symbols).isSome = true := by
  exact ⟨fun st text => rfl, by decide⟩

/-- Claim C1, counterexample: in ex1 the outer declaration of x is on line 0
and the nested (shadowing) declaration is on line 3, inside the body of
PROCEDURE p.  Resolving the occurrence of x at line 5 column 0 — OUTSIDE
the nested scope — returns the INNER declaration (line 3), not the outer
one: the flat symbol table holds a single entry for x, overwritten by the
nested declaration, so the claim that the outer Symbol is returned outside
the nested scope is false. -/
theorem C1_counterexample :
    dictGet (ch "x") (parse initState ex1).symbols =
      some { name := ch "x", kind := SymbolKind.VARIABLE, data_type := ch "INTEGER",
             line := 3, column := 0, documentation := ch "INTEGER variable" } ∧
    get_definition (parse initState ex1) 5 0 =
      some { line := 3, column := 0, name := ch "x" } := by
  decide

/-- Claim C1 as amended: resolution is position-insensitive.  Any two
positions whose token is the same identifier resolve to the same result —
the single flat-table entry for that name (the declaration processed last),
so occurrences inside and outside a nested scope resolve identically. -/
theorem C1_theorem (st : ParserState) (l1 c1 l2 c2 : Nat) (w : Str)
    (h1 : wordAt st l1 c1 = some w) (h2 : wordAt st l2 c2 = some w) :
    get_definition st l1 c1 = get_definition st l2 c2 := by
  unfold get_definition
  rw [h1, h2]

/-- Witness for C1_theorem: in ex1 the position (3, 8) lies inside the
nested scope and (5, 0) outside it, both on the identifier x, and the two
resolutions coincide. -/
theorem C1_witness :
    wordAt (parse initState ex1) 5 0 = some (ch "x") ∧
    wordAt (parse initState ex1) 3 8 = some (ch "x") ∧
    get_definition (parse initState ex1) 5 0 = get_definition (parse initState ex1) 3 8 :=
  ⟨by decide, by decide, C1_theorem (parse initState ex1) 5 0 3 8 (ch "x") (by decide) (by decide)⟩

/-- Claim C2, evaluation at the failing input: _remove_comments DELETES the
COMMENT region of ex2 outright (the two-line comment collapses away), so
the Symbol for x is recorded at line 1 column 0 of the comment-stripped
text, while in the raw text — whose lines the snapshot stores, line 1 being
just b; — the declaration of x sits on line 2.  The recorded position does
NOT equal the raw-text position, and go-to-definition on the real
occurrence of x (line 2, column 8) answers line 1, a position inside the
deleted comment region. -/
theorem C2_theorem :
    remove_comments ex2 = ch "\nINTEGER x;" ∧
    dictGet (ch "x") (parse initState ex2).symbols =
      some { name := ch "x", kind := SymbolKind.VARIABLE, data_type := ch "INTEGER",
             line := 1, column := 0, documentation := ch "INTEGER variable" } ∧
    (parse initState ex2).lines = [ch "COMMENT a", ch "b;", ch "INTEGER x;"] ∧
    get_definition (parse initState ex2) 2 8 =
      some { line := 1, column := 0, name := ch "x" } := by
  decide

/-- Claim C3, counterexample: in ex3 the global variable x and the
parameter x of PROCEDURE p (stored as the differently-scoped symbol p.x)
share a spelling.  The references query at the global declaration of x
(line 0, column 8) returns the occurrence at line 1 column 27 — the
parameter declaration site of the OTHER, differently-scoped symbol —
because matching is by raw lowercased text, so the claim that such
occurrences are never returned is false. -/
theorem C3_counterexample :
    (dictGet (ch "p.x") (parse initState ex3).symbols).isSome = true ∧
    get_references_at (parse initState ex3) 0 8 =
      [{ line := 0, column := 8, end_column := 9 },
       { line := 1, column := 27, end_column := 28 },
       { line := 2, column := 0, end_column := 1 }] := by
  decide

/-- Claim C3 as amended: the references query returns exactly the recorded
occurrences whose lowercased spelling equals that of the token at the
queried position — matching by raw text, not by resolved identity, so
identically-spelled identifiers of different scopes ARE included. -/
theorem C3_theorem (st : ParserState) (l c : Nat) (w : Str) (r : RefLoc)
    (h : wordAt st l c = some w) :
    r ∈ get_references_at st l c ↔
      ∃ ref, ref ∈ st.references ∧ ref.name = strLower w ∧
        r = { line := ref.line, column := ref.column, end_column := ref.end_column } := by
  unfold get_references_at
  rw [h]
  simp only [List.mem_map, List.mem_filter, decide_eq_true_eq]
  constructor
  · rintro ⟨ref, ⟨hm, hn⟩, he⟩
    exact ⟨ref, hm, hn, he.symm⟩
  · rintro ⟨ref, hm, hn, he⟩
    exact ⟨ref, ⟨hm, hn⟩, he.symm⟩

/-- Witness for C3_theorem at the position and cross-scope occurrence of
the counterexample document. -/
theorem C3_witness :
    wordAt (parse initState ex3) 0 8 = some (ch "x") ∧
    (({ line := 1, column := 27, end_column := 28 } : RefLoc) ∈
        get_references_at (parse initState ex3) 0 8 ↔
      ∃ ref, ref ∈ (parse initState ex3).references ∧ ref.name = strLower (ch "x") ∧
        ({ line := 1, column := 27, end_column := 28 } : RefLoc) =
          { line := ref.line, column := ref.column, end_column := ref.end_column }) :=
  ⟨by decide,
   C3_theorem (parse initState ex3) 0 8 (ch "x")
     { line := 1, column := 27, end_column := 28 } (by decide)⟩

/-- Claim C8: a label occurrence whose lowercased name already has an entry
in the symbol table leaves that entry unchanged — the label pass never
replaces a previously extracted Symbol of the same name (the loop body only
inserts when the key is absent, and updates of other keys cannot disturb
it). -/
theorem C8_theorem (text : Str) (tbl : SymTable) (k : Str) (v : Symbol)
    (h : dictGet k tbl = some v) :
    dictGet k (parse_labels text tbl) = some v := by
  unfold parse_labels
  exact foldl_labelStep_preserves text k v _ tbl h

/-- Sample symbol-table entry for the C8 witness. -/
def sampleSymbol : Symbol :=
  { name := ch "x", kind := SymbolKind.VARIABLE, data_type := ch "INTEGER",
    line := 0, column := 0, documentation := ch "INTEGER variable" }

/-- Sample symbol table for the C8 witness. -/
def sampleTable : SymTable := [(ch "x", sampleSymbol)]

/-- Witness for C8_theorem: the text contains a label occurrence of x, yet
the pre-existing entry for x is returned unchanged. -/
theorem C8_witness :
    dictGet (ch "x") sampleTable = some sampleSymbol ∧
    dictGet (ch "x") (parse_labels (ch "x: y") sampleTable) = some sampleSymbol :=
  ⟨by decide, C8_theorem (ch "x: y") sampleTable (ch "x") sampleSymbol (by decide)⟩

/-- Claim C9: for a query position whose line number is at least the number
of stored lines, get_hover and get_definition return none and
get_references_at returns the empty list (the range guard of each query),
and being total functions they raise nothing. -/
theorem C9_theorem (st : ParserState) (line column : Nat) (h : st.lines.length ≤ line) :
    get_hover st line column = none ∧ get_definition st line column = none ∧
      get_references_at st line column = [] := by
  have hl : st.lines[line]? = none := List.getElem?_eq_none h
  have hw : wordAt st line column = none := by
    unfold wordAt
    rw [hl]
  refine ⟨?_, ?_, ?_⟩ <;> simp [get_hover, get_definition, get_references_at, hw]

/-- Witness for C9_theorem: a one-line document queried at line 5. -/
theorem C9_witness :
    (parse initState (ch "INTEGER x;")).lines.length ≤ 5 ∧
    (get_hover (parse initState (ch "INTEGER x;")) 5 0 = none ∧
     get_definition (parse initState (ch "INTEGER x;")) 5 0 = none ∧
     get_references_at (parse initState (ch "INTEGER x;")) 5 0 = []) :=
  ⟨by decide, C9_theorem (parse initState (ch "INTEGER x;")) 5 0 (by decide)⟩

end Coral66
